import Mathlib

/-- The greet handler from src/api/main.py: given the query parameter `name`,
it returns a one-field dictionary mapping "message" to the formatted greeting.
Python's f-string interpolation of a plain variable inserts the string value
verbatim, i.e. it is string concatenation. -/
def greet (name : String) : List (String × String) :=
  [("message", "Hello, my name is " ++ name)]

/-- An HTTP response: either a success (status 200) carrying a JSON-object
body, or a client-error response carrying only a status code. -/
inductive Response where
  | ok (body : List (String × String))
  | clientError (code : Nat)
deriving DecidableEq, Repr

/-- Status code of a response. -/
def Response.status : Response → Nat
  | .ok _ => 200
  | .clientError c => c

/-- The "message" field of a response body, when present. -/
def Response.message : Response → Option String
  | .ok body => body.lookup "message"
  | .clientError _ => none

/-- Modelled from the spec: the framework layer (FastAPI routing and query
parsing, which is a dependency, not part of this repository's source)
extracts the required query parameter `name` from the request. If it is
present the framework calls the handler and wraps its result in a 200
response; if it is missing the framework rejects the request with a 422
client-error response before the handler runs. -/
def handleGreet (params : List (String × String)) : Response :=
  match params.lookup "name" with
  | some v => Response.ok (greet v)
  | none => Response.clientError 422

/-- One request cycle over the observable server state: the handler body in
src/api/main.py reads and writes no variable outside its parameter and its
returned literal, so the state threads through unchanged. -/
def handleRequest (st : List (String × String)) (params : List (String × String)) :
    List (String × String) × Response :=
  (st, handleGreet params)

/-- Helper: String append is left-cancellative. -/
theorem string_append_left_cancel {s v1 v2 : String} (h : s ++ v1 = s ++ v2) :
    v1 = v2 := by
  have h2 := congrArg String.data h
  simp only [String.data_append] at h2
  have h3 := List.append_cancel_left h2
  cases v1
  cases v2
  exact congrArg String.mk h3

/-- C1: for every text value v, the greet operation returns an object whose
message field equals "Hello, my name is " concatenated with v; in particular
name = "Alice" yields message "Hello, my name is Alice". -/
theorem greet_message_eq (v : String) :
    (greet v).lookup "message" = some ("Hello, my name is " ++ v) ∧
    greet "Alice" = [("message", "Hello, my name is Alice")] :=
  ⟨rfl, rfl⟩

/-- C2: when the name parameter is absent, the framework layer produces a
client-error response (status in the 4xx range, never a 200 success and never
the handler's result), and the response carries no message field. -/
theorem handleGreet_missing_name (params : List (String × String))
    (h : params.lookup "name" = none) :
    handleGreet params = Response.clientError 422 ∧
    400 ≤ (handleGreet params).status ∧ (handleGreet params).status < 500 ∧
    (handleGreet params).message = none := by
  have he : handleGreet params = Response.clientError 422 := by
    unfold handleGreet
    rw [h]
  rw [he]
  exact ⟨rfl, by decide, by decide, rfl⟩

/-- Witness for C2 at the empty parameter list. -/
theorem handleGreet_missing_name_witness :
    handleGreet [] = Response.clientError 422 ∧
    400 ≤ (handleGreet []).status ∧ (handleGreet []).status < 500 ∧
    (handleGreet []).message = none :=
  handleGreet_missing_name [] rfl

/-- C3: when the name parameter is present and equal to the empty string, the
operation succeeds (status 200, not a rejection) and returns
message = "Hello, my name is " with nothing after the trailing space. -/
theorem handleGreet_empty_name (params : List (String × String))
    (h : params.lookup "name" = some "") :
    handleGreet params = Response.ok [("message", "Hello, my name is ")] ∧
    (handleGreet params).status = 200 := by
  have he : handleGreet params = Response.ok [("message", "Hello, my name is ")] := by
    unfold handleGreet
    rw [h]
    rfl
  rw [he]
  exact ⟨rfl, rfl⟩

/-- Witness for C3 at the singleton parameter list mapping name to "". -/
theorem handleGreet_empty_name_witness :
    handleGreet [("name", "")] = Response.ok [("message", "Hello, my name is ")] ∧
    (handleGreet [("name", "")]).status = 200 :=
  handleGreet_empty_name [("name", "")] rfl

/-- C4: the operation is deterministic and idempotent: the response depends
on nothing but the supplied name (not on any server state), and a second
invocation with the same name, run after the first, yields an equal
response, hence an equal message. -/
theorem greet_deterministic (st : List (String × String)) (v : String) :
    (∀ st2, (handleRequest st2 [("name", v)]).2 = (handleRequest st [("name", v)]).2) ∧
    (handleRequest (handleRequest st [("name", v)]).1 [("name", v)]).2 =
      (handleRequest st [("name", v)]).2 :=
  ⟨fun _ => rfl, rfl⟩

/-- C5: for every input name, the returned value is a structure with exactly
one field, and that field is named message. -/
theorem greet_single_field (v : String) :
    (greet v).length = 1 ∧ (greet v).map Prod.fst = ["message"] :=
  ⟨rfl, rfl⟩

/-- C6: for every request with a name parameter present, the response status
is 200 OK and the body is the single-field object mapping message to
"Hello, my name is " concatenated with the value; no error branch is taken. -/
theorem handleGreet_present_name (params : List (String × String)) (v : String)
    (h : params.lookup "name" = some v) :
    (handleGreet params).status = 200 ∧
    handleGreet params = Response.ok [("message", "Hello, my name is " ++ v)] := by
  have he : handleGreet params = Response.ok [("message", "Hello, my name is " ++ v)] := by
    unfold handleGreet
    rw [h]
    rfl
  rw [he]
  exact ⟨rfl, rfl⟩

/-- Witness for C6 at name = "Bob". -/
theorem handleGreet_present_name_witness :
    (handleGreet [("name", "Bob")]).status = 200 ∧
    handleGreet [("name", "Bob")] =
      Response.ok [("message", "Hello, my name is Bob")] :=
  handleGreet_present_name [("name", "Bob")] "Bob" rfl

/-- C7: the handler has no side effects: handling any request leaves the
observable server state unchanged, whatever that state and request are. -/
theorem handleRequest_no_side_effects (st : List (String × String))
    (params : List (String × String)) :
    (handleRequest st params).1 = st :=
  rfl

/-- C8: the handler is total: for every string name, including strings with
braces, quotes or non-ASCII text, it returns a message value, whose
characters are the fixed 18-character greeting followed by the characters of
name verbatim; interpolation never re-interprets the contents, as checked
concretely on a brace-and-quote-laden and a non-ASCII input. -/
theorem greet_total_verbatim (v : String) :
    (∃ m, (greet v).lookup "message" = some m ∧
      m.data.take 18 = "Hello, my name is ".data ∧
      m.data.drop 18 = v.data) ∧
    greet "\x7bname\x7d\"" = [("message", "Hello, my name is \x7bname\x7d\"")] ∧
    greet "Ωλ" = [("message", "Hello, my name is Ωλ")] := by
  refine ⟨⟨"Hello, my name is " ++ v, rfl, ?_, ?_⟩, rfl, rfl⟩
  · have h : ("Hello, my name is " ++ v).data = "Hello, my name is ".data ++ v.data :=
      String.data_append ..
    rw [h]
    have h18 : ("Hello, my name is ".data).length = 18 := by decide
    rw [← h18]
    exact List.take_left ..
  · have h : ("Hello, my name is " ++ v).data = "Hello, my name is ".data ++ v.data :=
      String.data_append ..
    rw [h]
    have h18 : ("Hello, my name is ".data).length = 18 := by decide
    rw [← h18]
    exact List.drop_left ..

/-- C9: the greeting is injective in the name: equal message values imply
equal names, because the fixed greeting is a cancellable left factor. -/
theorem greet_injective (v1 v2 : String)
    (h : (greet v1).lookup "message" = (greet v2).lookup "message") :
    v1 = v2 := by
  simp only [greet, List.lookup] at h
  have h2 : "Hello, my name is " ++ v1 = "Hello, my name is " ++ v2 := by
    simpa using h
  exact string_append_left_cancel h2

/-- Witness for C9: applying injectivity at two concrete equal messages. -/
theorem greet_injective_witness : ("Alice" : String) = "Alice" :=
  greet_injective "Alice" "Alice" rfl
